import Mathlib

/-!
Verification of the evaluation-and-aggregation pipeline of report.py
(`AIEvaluator` and `ReportGenerator`).

The pipeline is embedded shallowly:

* Python dicts with a fixed key schema become structures whose fields are
  `Option`-valued where the code accesses them with `.get` and a default.
* Rational arithmetic (`ℚ`) stands for Python float arithmetic; Python's
  `round(x, 2)` (round half to even at two decimals) becomes `pyRound2`.
* The single external collaborator — the text-generation service together
  with the fence-stripping and JSON parsing of its reply inside
  `_call_ai` — is abstracted as an `Option AIDict` argument: `some d`
  when the call succeeded and the reply parsed to the dictionary `d`,
  `none` when any step of the `try` block raised.
-/

/-- One entry of `test_case_results`.  The code only ever reads the key
`"pass"` (with default `False`); the `input` and `expected` keys of the
payloads are never read and are omitted. -/
structure TestCaseResult where
  pass : Option Bool
  deriving Repr, DecidableEq

/-- A submission payload as consumed by `AIEvaluator` / `ReportGenerator`.
`ai_generated_coding_question` and `language` are read with direct
indexing in `ReportGenerator.generate`; the two error flags are read with
`.get` (default falsy) and are modelled as plain booleans. -/
structure Payload where
  ai_generated_coding_question : String
  language : String
  User_code : String
  test_case_results : List TestCaseResult
  syntax_error : Bool
  runtime_error : Bool
  deriving Repr, DecidableEq

/-- The `"technical_analysis"` sub-dictionary of a qualitative reply. -/
structure TechnicalAnalysis where
  efficiency_score : Option ℚ
  style_score : Option ℚ
  time_complexity : Option String
  space_complexity : Option String
  critique : Option String
  deriving Repr, DecidableEq

/-- The `"feedback_for_candidate"` sub-dictionary of a qualitative reply. -/
structure FeedbackForCandidate where
  what_went_well : Option String
  what_to_improve : Option String
  deriving Repr, DecidableEq

/-- The `"recruiter_executive_summary"` sub-dictionary of a synthesis reply. -/
structure RecruiterExecutiveSummary where
  hiring_decision : Option String
  candidate_level_assessment : Option String
  final_conclusion : Option String
  deriving Repr, DecidableEq

/-- The `"candidate_holistic_feedback"` sub-dictionary of a synthesis reply. -/
structure CandidateHolisticFeedback where
  major_strength : Option String
  major_weakness : Option String
  final_recommendation : Option String
  deriving Repr, DecidableEq

/-- A dictionary as returned by `_call_ai`, `_get_fallback_error`, or the
external model: any of the four top-level keys may be absent. -/
structure AIDict where
  technical_analysis : Option TechnicalAnalysis
  feedback_for_candidate : Option FeedbackForCandidate
  recruiter_executive_summary : Option RecruiterExecutiveSummary
  candidate_holistic_feedback : Option CandidateHolisticFeedback
  deriving Repr, DecidableEq

/-- The empty dict `{}` returned by `_call_ai` on exception. -/
def emptyAIDict : AIDict :=
  { technical_analysis := none, feedback_for_candidate := none,
    recruiter_executive_summary := none, candidate_holistic_feedback := none }

/-- The default `{}` used by `qual.get("technical_analysis", {})`. -/
def emptyTechnicalAnalysis : TechnicalAnalysis :=
  { efficiency_score := none, style_score := none, time_complexity := none,
    space_complexity := none, critique := none }

/-- The default `{}` used by `.get("feedback_for_candidate", {})`. -/
def emptyFeedbackForCandidate : FeedbackForCandidate :=
  { what_went_well := none, what_to_improve := none }

/-- The default `{}` used by `final_summary.get("recruiter_executive_summary", {})`. -/
def emptyRecruiterExecutiveSummary : RecruiterExecutiveSummary :=
  { hiring_decision := none, candidate_level_assessment := none, final_conclusion := none }

/-- The default `{}` used by `final_summary.get("candidate_holistic_feedback", {})`. -/
def emptyCandidateHolisticFeedback : CandidateHolisticFeedback :=
  { major_strength := none, major_weakness := none, final_recommendation := none }

/-- Round half to even, the rounding mode of Python's builtin `round`. -/
def roundHalfEven (q : ℚ) : ℤ :=
  if q - Int.floor q < 1 / 2 then Int.floor q
  else if 1 / 2 < q - Int.floor q then Int.floor q + 1
  else if Int.floor q % 2 = 0 then Int.floor q else Int.floor q + 1

/-- Python's `round(x, 2)`: round to two decimal places, ties to even. -/
def pyRound2 (q : ℚ) : ℚ := (roundHalfEven (q * 100) : ℚ) / 100

/-- The `WEIGHTS` configuration table (lines 19-25 of report.py).  The key
`"syntax"` is spelled `syntaxWeight` because `syntax` is reserved in Lean. -/
structure Weights where
  syntaxWeight : ℚ
  logic : ℚ
  efficiency : ℚ
  quality : ℚ
  style : ℚ
  deriving Repr, DecidableEq

def WEIGHTS : Weights :=
  { syntaxWeight := 15, logic := 40, efficiency := 20, quality := 15, style := 10 }

/-- `total = len(results)` (line 31). -/
def total_tests_of (payload : Payload) : ℕ :=
  payload.test_case_results.length

/-- `passed = sum(1 for r in results if r.get("pass", False))` (line 32). -/
def passed_tests_of (payload : Payload) : ℕ :=
  (payload.test_case_results.filter (fun r => r.pass.getD false)).length

/-- The dictionary returned by `AIEvaluator.quantitative_check`. -/
structure Quant where
  status : String
  pass_rate : ℚ
  passed_tests : ℕ
  total_tests : ℕ
  deriving Repr, DecidableEq

/-- The local `pass_rate = (passed / total) * 100 if total > 0 else 0.0`
(line 37). -/
def pass_rate_of (payload : Payload) : ℚ :=
  if 0 < total_tests_of payload then
    ((passed_tests_of payload : ℚ) / (total_tests_of payload : ℚ)) * 100
  else 0

/-- `AIEvaluator.quantitative_check` (lines 29-45).  The Python computes
`passed`/`total` before the syntax-error test but only the branch taken
determines the result, so the order is immaterial.  The status is decided
on the raw `pass_rate` and the stored rate is the rounded one, as on
lines 38 and 42. -/
def quantitative_check (payload : Payload) : Quant :=
  if payload.syntax_error then
    { status := "Syntax Error", pass_rate := 0, passed_tests := 0,
      total_tests := total_tests_of payload }
  else
    { status :=
        if payload.runtime_error then "Runtime Error"
        else if pass_rate_of payload < 100 then "Partial Pass" else "Completed",
      pass_rate := pyRound2 (pass_rate_of payload),
      passed_tests := passed_tests_of payload,
      total_tests := total_tests_of payload }

/-- `AIEvaluator._get_fallback_error` (lines 149-155). -/
def _get_fallback_error (message : String) : AIDict :=
  { technical_analysis := some
      { efficiency_score := some 5, style_score := some 5,
        time_complexity := none, space_complexity := none,
        critique := some "AI Error" },
    feedback_for_candidate := some
      { what_went_well := some "N/A",
        what_to_improve := some ("Error: " ++ message) },
    recruiter_executive_summary := some
      { hiring_decision := some "Undetermined",
        candidate_level_assessment := none,
        final_conclusion := some "AI Service Unavailable" },
    candidate_holistic_feedback := some
      { major_strength := some "N/A", major_weakness := some "N/A",
        final_recommendation := none } }

/-- `AIEvaluator._call_ai` (lines 124-147).  The network call, the
fence-stripping regex and `json.loads` are abstracted into the
`response` argument (see the file header); the `except` branch prints
and returns the empty dict `{}`. -/
def _call_ai (response : Option AIDict) : AIDict :=
  match response with
  | some d => d
  | none => emptyAIDict

/-- `AIEvaluator.qualitative_check` (lines 47-85).  The prompt text built
from the payload and the quantitative result only feeds the abstracted
external call and does not influence the returned dictionary, so the
`quant` argument is dropped. -/
def qualitative_check (payload : Payload) (response : Option AIDict) : AIDict :=
  if payload.syntax_error then
    _get_fallback_error "Syntax Error - Code did not compile."
  else
    _call_ai response

/-- `qual.get("technical_analysis", {}).get("efficiency_score", 0)` (line 160). -/
def effOf (qual : AIDict) : ℚ :=
  ((qual.technical_analysis.getD emptyTechnicalAnalysis).efficiency_score).getD 0

/-- `qual.get("technical_analysis", {}).get("style_score", 0)` (line 161). -/
def styleOf (qual : AIDict) : ℚ :=
  ((qual.technical_analysis.getD emptyTechnicalAnalysis).style_score).getD 0

/-- `AIEvaluator.score` (lines 157-167).  The Python accumulates the
weighted sum into `total` by successive `+=`; the sum is written out
flat here. -/
def score (quant : Quant) (qual : AIDict) (syntax_error : Bool) : ℚ :=
  if syntax_error then 0
  else
    pyRound2 (WEIGHTS.syntaxWeight
      + (quant.pass_rate / 100) * WEIGHTS.logic
      + (effOf qual / 10) * WEIGHTS.efficiency
      + (styleOf qual / 10) * (WEIGHTS.quality + WEIGHTS.style))

/-- `AIEvaluator.synthesize_final_report` (lines 87-122).  The summary
context and prompt built from the individual reports and the overall
score only feed the abstracted external call. -/
def synthesize_final_report (response : Option AIDict) : AIDict :=
  _call_ai response

/-- One element of the `reports` list built by `ReportGenerator.generate`
(lines 185-191). -/
structure QuestionReport where
  question : String
  language : String
  final_score : ℚ
  metrics : Quant
  ai_analysis : AIDict
  deriving Repr, DecidableEq

/-- The `"final_conclusive_report"` sub-dictionary (lines 202-207). -/
structure FinalConclusiveReport where
  overall_score : ℚ
  status : String
  recruiter_summary : RecruiterExecutiveSummary
  candidate_growth_plan : CandidateHolisticFeedback
  deriving Repr, DecidableEq

/-- The dictionary returned by `ReportGenerator.generate` (lines 200-208). -/
structure FinalReport where
  detailed_question_analysis : List QuestionReport
  final_conclusive_report : FinalConclusiveReport
  deriving Repr, DecidableEq

/-- `ReportGenerator.generate` (lines 174-208).  The external service is
abstracted as one `Option AIDict` per qualitative call (indexed by the
submission's position, `qualResponse`) plus one for the synthesis call
(`synthResponse`).  `scores` is the `final_score` projection of
`reports`, exactly as the loop appends to both lists in lockstep. -/
def generate (qualResponse : ℕ → Option AIDict) (synthResponse : Option AIDict)
    (payloads : List Payload) : FinalReport :=
  let reports : List QuestionReport :=
    payloads.enum.map (fun ip =>
      let payload := ip.2
      let quant := quantitative_check payload
      let qual := qualitative_check payload (qualResponse ip.1)
      let final_score := score quant qual payload.syntax_error
      { question := payload.ai_generated_coding_question,
        language := payload.language,
        final_score := final_score,
        metrics := quant,
        ai_analysis := qual })
  let scores : List ℚ := reports.map QuestionReport.final_score
  let overall_avg : ℚ :=
    if scores.length = 0 then 0 else pyRound2 (scores.sum / (scores.length : ℚ))
  let final_summary := synthesize_final_report synthResponse
  { detailed_question_analysis := reports,
    final_conclusive_report :=
      { overall_score := overall_avg,
        status := if 70 ≤ overall_avg then "Passed" else "Failed",
        recruiter_summary :=
          final_summary.recruiter_executive_summary.getD emptyRecruiterExecutiveSummary,
        candidate_growth_plan :=
          final_summary.candidate_holistic_feedback.getD emptyCandidateHolisticFeedback } }

/-! ### Concrete inputs used by witnesses and counterexamples -/

/-- A submission with no test results and no error flags. -/
def pNoTests : Payload :=
  { ai_generated_coding_question := "Q1: Implement a function to reverse a string.",
    language := "Python", User_code := "def reverse_string(s): return s[::-1]",
    test_case_results := [], syntax_error := false, runtime_error := false }

/-- A submission whose code failed to compile. -/
def pSyntaxErr : Payload :=
  { ai_generated_coding_question := "Q2: Write a function to find the factorial of a number.",
    language := "Java", User_code := "class Solution",
    test_case_results := [{ pass := some false }], syntax_error := true,
    runtime_error := false }

/-- A compiling submission passing one of its two tests, used to exercise
the external-call failure path. -/
def pAIFail : Payload :=
  { ai_generated_coding_question := "Q3: Implement a function to reverse a string.",
    language := "C++", User_code := "string reverseString of s",
    test_case_results := [{ pass := some true }, { pass := some false }],
    syntax_error := false, runtime_error := false }

/-- A quantitative result with a perfect pass rate. -/
def qFull : Quant :=
  { status := "Completed", pass_rate := 100, passed_tests := 2, total_tests := 2 }

/-- A quantitative result with a 50% pass rate. -/
def qHalf : Quant :=
  { status := "Partial Pass", pass_rate := 50, passed_tests := 1, total_tests := 2 }

/-- A critique dictionary with the given efficiency and style scores. -/
def mkQual (eff style : ℚ) : AIDict :=
  { technical_analysis := some
      { efficiency_score := some eff, style_score := some style,
        time_complexity := some "O(n)", space_complexity := some "O(1)",
        critique := some "ok" },
    feedback_for_candidate := some
      { what_went_well := some "ok", what_to_improve := some "nothing" },
    recruiter_executive_summary := none,
    candidate_holistic_feedback := none }

/-- Payloads and qualitative replies realizing the final scores 100, 50
and 60: full pass with top critique scores; no tests with efficiency 10
and style 6; no tests with top critique scores. -/
def pHundred : Payload :=
  { ai_generated_coding_question := "Q1", language := "Python", User_code := "a",
    test_case_results := [{ pass := some true }], syntax_error := false,
    runtime_error := false }

def pFifty : Payload :=
  { ai_generated_coding_question := "Q2", language := "Java", User_code := "b",
    test_case_results := [], syntax_error := false, runtime_error := false }

def pSixty : Payload :=
  { ai_generated_coding_question := "Q3", language := "C++", User_code := "c",
    test_case_results := [], syntax_error := false, runtime_error := false }

def exPayloads : List Payload := [pHundred, pFifty, pSixty]

/-- External replies for the three submissions of `exPayloads`. -/
def exQual : ℕ → Option AIDict := fun i =>
  if i = 0 then some (mkQual 10 10)
  else if i = 1 then some (mkQual 10 6)
  else some (mkQual 10 10)

/-! ### Properties of the rounding function -/

theorem roundHalfEven_le (q : ℚ) : (roundHalfEven q : ℚ) ≤ q + 1 / 2 := by
  unfold roundHalfEven
  have h1 := Int.floor_le q
  split_ifs with ha hb hc <;> push_cast <;> linarith

theorem le_roundHalfEven (q : ℚ) : q - 1 / 2 ≤ (roundHalfEven q : ℚ) := by
  unfold roundHalfEven
  have h1 := Int.floor_le q
  have h2 := Int.lt_floor_add_one q
  split_ifs with ha hb hc <;> push_cast <;> linarith

theorem roundHalfEven_mono {a b : ℚ} (h : a ≤ b) :
    roundHalfEven a ≤ roundHalfEven b := by
  by_contra hc
  push_neg at hc
  have h1 : roundHalfEven b + 1 ≤ roundHalfEven a := Int.lt_iff_add_one_le.mp hc
  have h1q : (roundHalfEven b : ℚ) + 1 ≤ (roundHalfEven a : ℚ) := by exact_mod_cast h1
  have hb := le_roundHalfEven b
  have ha := roundHalfEven_le a
  have hba : b ≤ a := by linarith
  have heq : a = b := le_antisymm h hba
  rw [heq] at hc
  exact lt_irrefl _ hc

theorem roundHalfEven_intCast (n : ℤ) : roundHalfEven (n : ℚ) = n := by
  unfold roundHalfEven
  rw [Int.floor_intCast]
  rw [if_pos (by norm_num : (n : ℚ) - n < 1 / 2)]

theorem pyRound2_mono {a b : ℚ} (h : a ≤ b) : pyRound2 a ≤ pyRound2 b := by
  unfold pyRound2
  have hm : roundHalfEven (a * 100) ≤ roundHalfEven (b * 100) :=
    roundHalfEven_mono (by linarith)
  have hm2 : (roundHalfEven (a * 100) : ℚ) ≤ (roundHalfEven (b * 100) : ℚ) := by
    exact_mod_cast hm
  linarith

theorem pyRound2_nonneg {a : ℚ} (h : 0 ≤ a) : 0 ≤ pyRound2 a := by
  have h0 : pyRound2 0 = 0 := by
    unfold pyRound2
    rw [zero_mul]
    rw [show ((0 : ℚ)) = ((0 : ℤ) : ℚ) by norm_num, roundHalfEven_intCast]
    norm_num
  calc (0 : ℚ) = pyRound2 0 := h0.symm
    _ ≤ pyRound2 a := pyRound2_mono h

theorem pyRound2_le_100 {a : ℚ} (h : a ≤ 100) : pyRound2 a ≤ 100 := by
  have h0 : pyRound2 100 = 100 := by
    unfold pyRound2
    rw [show ((100 : ℚ) * 100) = ((10000 : ℤ) : ℚ) by norm_num, roundHalfEven_intCast]
    norm_num
  calc pyRound2 a ≤ pyRound2 100 := pyRound2_mono h
    _ = 100 := h0

theorem pyRound2_intCast (n : ℤ) : pyRound2 ((n : ℚ)) = n := by
  unfold pyRound2
  rw [show ((n : ℚ) * 100) = (((n * 100 : ℤ)) : ℚ) by push_cast; ring,
    roundHalfEven_intCast]
  push_cast
  field_simp

theorem pyRound2_zero : pyRound2 0 = 0 := by
  simpa using pyRound2_intCast 0

/-- `pyRound2` fixes every rational that is already an exact multiple of
one hundredth. -/
theorem pyRound2_eq_self {q : ℚ} (n : ℤ) (h : q * 100 = (n : ℚ)) :
    pyRound2 q = q := by
  unfold pyRound2
  rw [h, roundHalfEven_intCast, ← h, mul_div_assoc]
  norm_num

/-! ### Helper lemmas about the components -/

theorem score_false_eq (quant : Quant) (qual : AIDict) :
    score quant qual false =
      pyRound2 (15 + quant.pass_rate / 100 * 40 + effOf qual / 10 * 20
        + styleOf qual / 10 * 25) := by
  unfold score WEIGHTS
  norm_num

theorem score_true_eq (quant : Quant) (qual : AIDict) :
    score quant qual true = 0 := rfl

theorem pass_rate_of_lt_100_iff (p : Payload) :
    pass_rate_of p < 100 ↔
      passed_tests_of p < total_tests_of p ∨ total_tests_of p = 0 := by
  unfold pass_rate_of
  by_cases ht : 0 < total_tests_of p
  · rw [if_pos ht]
    have htq : (0 : ℚ) < (total_tests_of p : ℚ) := by exact_mod_cast ht
    constructor
    · intro h
      left
      by_contra hp
      push_neg at hp
      have hq : (total_tests_of p : ℚ) ≤ (passed_tests_of p : ℚ) := by exact_mod_cast hp
      have : (100 : ℚ) ≤ (passed_tests_of p : ℚ) / (total_tests_of p : ℚ) * 100 := by
        rw [div_mul_eq_mul_div, le_div_iff₀ htq]
        nlinarith
      linarith
    · intro h
      rcases h with hp | h0
      · have hq : (passed_tests_of p : ℚ) < (total_tests_of p : ℚ) := by exact_mod_cast hp
        rw [div_mul_eq_mul_div, div_lt_iff₀ htq]
        nlinarith
      · omega
  · rw [if_neg ht]
    have h0 : total_tests_of p = 0 := by omega
    simp [h0]

theorem passed_iff_threshold (x : ℚ) :
    (if 70 ≤ x then "Passed" else "Failed") = "Passed" ↔ 70 ≤ x := by
  by_cases h : 70 ≤ x
  · simp [h]
  · rw [if_neg h]
    constructor
    · intro hh
      exact absurd hh (by decide)
    · intro hh
      exact absurd hh h

/-! ### Claim theorems -/

/-- C2: for every submission with the syntax-error flag set, the composed
final score (`AIEvaluator.score` with `syntax_error` true) is exactly 0.0,
regardless of the test results, pass rate, or critique scores. -/
theorem c2_score_syntax_error_zero (quant : Quant) (qual : AIDict) :
    score quant qual true = 0 :=
  score_true_eq quant qual

/-- C3: `quantitative_check` selects the status with precedence
syntax > runtime > pass-rate: `"Syntax Error"` whenever the syntax-error
flag is set; otherwise `"Runtime Error"` if the runtime-error flag is set;
otherwise `"Partial Pass"` if the pass rate is below 100 (equivalently:
some supplied test failed, or no tests were supplied at all); otherwise
(all supplied tests passed and there was at least one) `"Completed"`. -/
theorem c3_quantitative_status_precedence (p : Payload) :
    (quantitative_check p).status =
      if p.syntax_error then "Syntax Error"
      else if p.runtime_error then "Runtime Error"
      else if passed_tests_of p < total_tests_of p ∨ total_tests_of p = 0 then
        "Partial Pass"
      else "Completed" := by
  cases hs : p.syntax_error
  · cases hr : p.runtime_error
    · by_cases hc : passed_tests_of p < total_tests_of p ∨ total_tests_of p = 0
      · have hlt : pass_rate_of p < 100 := (pass_rate_of_lt_100_iff p).mpr hc
        simp [quantitative_check, hs, hr, hc, hlt]
      · have hlt : ¬ pass_rate_of p < 100 := fun h =>
          hc ((pass_rate_of_lt_100_iff p).mp h)
        simp [quantitative_check, hs, hr, hc, hlt]
    · simp [quantitative_check, hs, hr]
  · simp [quantitative_check, hs]

/-- C4: for every submission without a syntax error, the composed score
equals the weighted sum 15 + (pass_rate/100)*40 + (efficiency/10)*20 +
(style/10)*25 rounded to two decimals, and with pass rate 100 and
efficiency and style scores 10 the final score is exactly 100. -/
theorem c4_score_weighted_sum :
    (∀ (quant : Quant) (qual : AIDict),
        score quant qual false =
          pyRound2 (15 + quant.pass_rate / 100 * 40 + effOf qual / 10 * 20
            + styleOf qual / 10 * 25)) ∧
    (∀ (quant : Quant) (qual : AIDict),
        quant.pass_rate = 100 → effOf qual = 10 → styleOf qual = 10 →
          score quant qual false = 100) := by
  constructor
  · exact score_false_eq
  · intro quant qual h1 h2 h3
    rw [score_false_eq, h1, h2, h3,
      show (15 + (100 : ℚ) / 100 * 40 + 10 / 10 * 20 + 10 / 10 * 25) = (100 : ℚ) by
        norm_num]
    exact pyRound2_eq_self 10000 (by norm_num)

/-- C4 witness: the weighted-sum identity applied to a concrete perfect
submission: pass rate 100, efficiency 10, style 10 give exactly 100. -/
theorem c4_score_weighted_sum_witness :
    qFull.pass_rate = 100 ∧ effOf (mkQual 10 10) = 10 ∧
      styleOf (mkQual 10 10) = 10 ∧ score qFull (mkQual 10 10) false = 100 :=
  ⟨rfl, rfl, rfl, c4_score_weighted_sum.2 qFull (mkQual 10 10) rfl rfl rfl⟩

/-- C7: for every submission without a syntax error, the pass rate is 0
when no test results were supplied (the division by `total` is guarded)
and `passed/total * 100` rounded to two decimals otherwise. -/
theorem c7_pass_rate_division_guard (p : Payload) (h : p.syntax_error = false) :
    (quantitative_check p).pass_rate =
      if total_tests_of p = 0 then 0
      else pyRound2 ((passed_tests_of p : ℚ) / (total_tests_of p : ℚ) * 100) := by
  by_cases ht : total_tests_of p = 0
  · simp [quantitative_check, pass_rate_of, h, ht, pyRound2_zero]
  · have ht2 : 0 < total_tests_of p := Nat.pos_of_ne_zero ht
    simp [quantitative_check, pass_rate_of, h, ht, ht2]

/-- C7 witness: the guard applied to a concrete submission with zero test
results: its pass rate is 0. -/
theorem c7_pass_rate_division_guard_witness :
    pNoTests.syntax_error = false ∧ (quantitative_check pNoTests).pass_rate = 0 := by
  refine ⟨rfl, ?_⟩
  have h := c7_pass_rate_division_guard pNoTests rfl
  simpa [total_tests_of, pNoTests] using h

/-- C9: for every submission with the syntax-error flag set,
`qualitative_check` returns the fallback critique — efficiency 5, style 5,
critique "AI Error", "what to improve" carrying the syntax-error message —
and does so whatever the external model would have replied, so the result
is independent of the external model's behavior. -/
theorem c9_qualitative_syntax_short_circuit (p : Payload)
    (resp resp2 : Option AIDict) (h : p.syntax_error = true) :
    qualitative_check p resp =
        _get_fallback_error "Syntax Error - Code did not compile." ∧
      effOf (qualitative_check p resp) = 5 ∧
      styleOf (qualitative_check p resp) = 5 ∧
      ((qualitative_check p resp).technical_analysis.getD
          emptyTechnicalAnalysis).critique = some "AI Error" ∧
      ((qualitative_check p resp).feedback_for_candidate.getD
          emptyFeedbackForCandidate).what_to_improve =
        some "Error: Syntax Error - Code did not compile." ∧
      qualitative_check p resp = qualitative_check p resp2 := by
  have key : ∀ r : Option AIDict, qualitative_check p r =
      _get_fallback_error "Syntax Error - Code did not compile." := by
    intro r
    unfold qualitative_check
    rw [h]
    rfl
  refine ⟨key resp, ?_, ?_, ?_, ?_, ?_⟩
  · rw [key resp]; rfl
  · rw [key resp]; rfl
  · rw [key resp]; rfl
  · rw [key resp]; rfl
  · rw [key resp, key resp2]

/-- C9 witness: the short-circuit applied to a concrete syntax-error
submission, once with a failing external service and once with a service
that would have replied: both give the fallback critique. -/
theorem c9_qualitative_syntax_short_circuit_witness :
    pSyntaxErr.syntax_error = true ∧
      qualitative_check pSyntaxErr none =
        _get_fallback_error "Syntax Error - Code did not compile." ∧
      qualitative_check pSyntaxErr none =
        qualitative_check pSyntaxErr (some (mkQual 9 9)) := by
  have h := c9_qualitative_syntax_short_circuit pSyntaxErr none (some (mkQual 9 9)) rfl
  exact ⟨rfl, h.1, h.2.2.2.2.2⟩

/-- C1: at a non-syntax-error submission whose external call raised
(`response = none`), `qualitative_check` returns the empty dict `{}`,
not the fallback critique: the technical-analysis key is absent, the
defaulted efficiency and style scores are 0 rather than 5, and the
composed score is 35 (15 flat + 20 for the 50% pass rate, with zero
efficiency/style contribution) instead of the 57.5 that the fallback
critique would have produced. -/
theorem c1_qualitative_ai_failure_returns_empty_dict :
    qualitative_check pAIFail none = emptyAIDict ∧
      (qualitative_check pAIFail none).technical_analysis = none ∧
      effOf (qualitative_check pAIFail none) = 0 ∧
      styleOf (qualitative_check pAIFail none) = 0 ∧
      score (quantitative_check pAIFail) (qualitative_check pAIFail none) false = 35 ∧
      score (quantitative_check pAIFail)
          (_get_fallback_error "503 Service Unavailable") false = 57.5 := by
  have hpr : pass_rate_of pAIFail = 50 := by
    have h1 : passed_tests_of pAIFail = 1 := rfl
    have h2 : total_tests_of pAIFail = 2 := rfl
    unfold pass_rate_of
    rw [h1, h2]
    norm_num
  have hq : (quantitative_check pAIFail).pass_rate = pyRound2 (pass_rate_of pAIFail) := rfl
  have hq50 : (quantitative_check pAIFail).pass_rate = 50 := by
    rw [hq, hpr]
    exact pyRound2_eq_self 5000 (by norm_num)
  refine ⟨rfl, rfl, rfl, rfl, ?_, ?_⟩
  · rw [score_false_eq, hq50,
      show effOf (qualitative_check pAIFail none) = 0 from rfl,
      show styleOf (qualitative_check pAIFail none) = 0 from rfl,
      show (15 + (50 : ℚ) / 100 * 40 + 0 / 10 * 20 + 0 / 10 * 25) = (35 : ℚ) by norm_num]
    exact pyRound2_eq_self 3500 (by norm_num)
  · rw [score_false_eq, hq50,
      show effOf (_get_fallback_error "503 Service Unavailable") = 5 from rfl,
      show styleOf (_get_fallback_error "503 Service Unavailable") = 5 from rfl,
      show (15 + (50 : ℚ) / 100 * 40 + 5 / 10 * 20 + 5 / 10 * 25) = (57.5 : ℚ) by norm_num]
    exact pyRound2_eq_self 5750 (by norm_num)

/-- C8: the composed score is monotone in each component separately:
with the other inputs fixed, a larger pass rate, efficiency score or
style score never yields a smaller final score. -/
theorem c8_score_monotone :
    (∀ (q q2 : Quant) (ql : AIDict), q.pass_rate ≤ q2.pass_rate →
        score q ql false ≤ score q2 ql false) ∧
    (∀ (q : Quant) (ql ql2 : AIDict), effOf ql ≤ effOf ql2 →
        styleOf ql = styleOf ql2 → score q ql false ≤ score q ql2 false) ∧
    (∀ (q : Quant) (ql ql2 : AIDict), styleOf ql ≤ styleOf ql2 →
        effOf ql = effOf ql2 → score q ql false ≤ score q ql2 false) := by
  refine ⟨?_, ?_, ?_⟩
  · intro q q2 ql h
    rw [score_false_eq, score_false_eq]
    exact pyRound2_mono (by linarith)
  · intro q ql ql2 h hs
    rw [score_false_eq, score_false_eq, hs]
    exact pyRound2_mono (by linarith)
  · intro q ql ql2 h he
    rw [score_false_eq, score_false_eq, he]
    exact pyRound2_mono (by linarith)

/-- C8 witness: monotonicity applied at concrete inputs, once per
component (pass rate 50 vs 100, efficiency 5 vs 7, style 5 vs 7). -/
theorem c8_score_monotone_witness :
    (qHalf.pass_rate ≤ qFull.pass_rate ∧
      score qHalf (mkQual 5 5) false ≤ score qFull (mkQual 5 5) false) ∧
      (effOf (mkQual 5 5) ≤ effOf (mkQual 7 5) ∧
        styleOf (mkQual 5 5) = styleOf (mkQual 7 5) ∧
        score qHalf (mkQual 5 5) false ≤ score qHalf (mkQual 7 5) false) ∧
      (styleOf (mkQual 5 5) ≤ styleOf (mkQual 5 7) ∧
        effOf (mkQual 5 5) = effOf (mkQual 5 7) ∧
        score qHalf (mkQual 5 5) false ≤ score qHalf (mkQual 5 7) false) := by
  refine ⟨⟨?_, ?_⟩, ⟨?_, rfl, ?_⟩, ⟨?_, rfl, ?_⟩⟩
  · rw [show qHalf.pass_rate = (50 : ℚ) from rfl,
      show qFull.pass_rate = (100 : ℚ) from rfl]
    norm_num
  · exact c8_score_monotone.1 qHalf qFull (mkQual 5 5) (by
      rw [show qHalf.pass_rate = (50 : ℚ) from rfl,
        show qFull.pass_rate = (100 : ℚ) from rfl]
      norm_num)
  · rw [show effOf (mkQual 5 5) = (5 : ℚ) from rfl,
      show effOf (mkQual 7 5) = (7 : ℚ) from rfl]
    norm_num
  · exact c8_score_monotone.2.1 qHalf (mkQual 5 5) (mkQual 7 5) (by
      rw [show effOf (mkQual 5 5) = (5 : ℚ) from rfl,
        show effOf (mkQual 7 5) = (7 : ℚ) from rfl]
      norm_num) rfl
  · rw [show styleOf (mkQual 5 5) = (5 : ℚ) from rfl,
      show styleOf (mkQual 5 7) = (7 : ℚ) from rfl]
    norm_num
  · exact c8_score_monotone.2.2 qHalf (mkQual 5 5) (mkQual 5 7) (by
      rw [show styleOf (mkQual 5 5) = (5 : ℚ) from rfl,
        show styleOf (mkQual 5 7) = (7 : ℚ) from rfl]
      norm_num) rfl

/-- C10 counterexample: the composer does not clamp, so a critique with
an out-of-range efficiency score of 20 on a full-pass submission yields
the final score 120, outside 0-100: the claim is false as stated. -/
theorem c10_score_range_counterexample :
    score qFull (mkQual 20 10) false = 120 ∧
      ¬ (0 ≤ score qFull (mkQual 20 10) false ∧
          score qFull (mkQual 20 10) false ≤ 100) := by
  have h : score qFull (mkQual 20 10) false = 120 := by
    rw [score_false_eq, show qFull.pass_rate = (100 : ℚ) from rfl,
      show effOf (mkQual 20 10) = (20 : ℚ) from rfl,
      show styleOf (mkQual 20 10) = (10 : ℚ) from rfl,
      show (15 + (100 : ℚ) / 100 * 40 + 20 / 10 * 20 + 10 / 10 * 25) = (120 : ℚ) by
        norm_num]
    exact pyRound2_eq_self 12000 (by norm_num)
  refine ⟨h, ?_⟩
  rw [h]
  norm_num

/-- C10 (amended): for inputs whose pass rate lies in 0-100 and whose
critique efficiency and style scores lie in 0-10 — which includes
critiques with the fields missing, as they default to 0 — the composed
score lies within 0-100; with the syntax-error flag it is 0, also in
range. -/
theorem c10_score_range (q : Quant) (ql : AIDict)
    (h1 : 0 ≤ q.pass_rate) (h2 : q.pass_rate ≤ 100)
    (h3 : 0 ≤ effOf ql) (h4 : effOf ql ≤ 10)
    (h5 : 0 ≤ styleOf ql) (h6 : styleOf ql ≤ 10) :
    ∀ se : Bool, 0 ≤ score q ql se ∧ score q ql se ≤ 100 := by
  intro se
  cases se
  · rw [score_false_eq]
    exact ⟨pyRound2_nonneg (by linarith), pyRound2_le_100 (by linarith)⟩
  · rw [score_true_eq]
    norm_num

/-- C10 witness: the range bound applied to a concrete half-pass
submission with a critique dictionary whose efficiency and style fields
are missing and therefore default to 0. -/
theorem c10_score_range_witness :
    (0 ≤ qHalf.pass_rate ∧ qHalf.pass_rate ≤ 100 ∧ effOf emptyAIDict = 0 ∧
      styleOf emptyAIDict = 0) ∧
      0 ≤ score qHalf emptyAIDict false ∧ score qHalf emptyAIDict false ≤ 100 := by
  refine ⟨⟨?_, ?_, rfl, rfl⟩, ?_⟩
  · rw [show qHalf.pass_rate = (50 : ℚ) from rfl]; norm_num
  · rw [show qHalf.pass_rate = (50 : ℚ) from rfl]; norm_num
  · exact c10_score_range qHalf emptyAIDict
      (by rw [show qHalf.pass_rate = (50 : ℚ) from rfl]; norm_num)
      (by rw [show qHalf.pass_rate = (50 : ℚ) from rfl]; norm_num)
      (by rw [show effOf emptyAIDict = (0 : ℚ) from rfl])
      (by rw [show effOf emptyAIDict = (0 : ℚ) from rfl]; norm_num)
      (by rw [show styleOf emptyAIDict = (0 : ℚ) from rfl])
      (by rw [show styleOf emptyAIDict = (0 : ℚ) from rfl]; norm_num)
      false

/-- C6: for every batch, when the final synthesis call fails
(`synthResponse = none`) the returned report still contains all
per-question reports and the computed overall score — the same as with
any synthesis reply — while the recruiter summary and growth plan are the
empty default structures; `generate` is a total function and never
raises. -/
theorem c6_generate_synthesis_failure_degrades
    (qualResponse : ℕ → Option AIDict) (payloads : List Payload) :
    (generate qualResponse none payloads).final_conclusive_report.recruiter_summary =
        emptyRecruiterExecutiveSummary ∧
      (generate qualResponse none
          payloads).final_conclusive_report.candidate_growth_plan =
        emptyCandidateHolisticFeedback ∧
      ∀ s : Option AIDict,
        (generate qualResponse none payloads).detailed_question_analysis =
            (generate qualResponse s payloads).detailed_question_analysis ∧
          (generate qualResponse none payloads).final_conclusive_report.overall_score =
            (generate qualResponse s payloads).final_conclusive_report.overall_score :=
  ⟨rfl, rfl, fun _ => ⟨rfl, rfl⟩⟩

theorem generate_reports_eq (qr : ℕ → Option AIDict) (s : Option AIDict)
    (ps : List Payload) :
    (generate qr s ps).detailed_question_analysis =
      ps.enum.map (fun ip =>
        { question := ip.2.ai_generated_coding_question,
          language := ip.2.language,
          final_score := score (quantitative_check ip.2)
            (qualitative_check ip.2 (qr ip.1)) ip.2.syntax_error,
          metrics := quantitative_check ip.2,
          ai_analysis := qualitative_check ip.2 (qr ip.1) }) := rfl

theorem generate_overall_eq (qr : ℕ → Option AIDict) (s : Option AIDict)
    (ps : List Payload) :
    (generate qr s ps).final_conclusive_report.overall_score =
      if (((generate qr s ps).detailed_question_analysis.map
            QuestionReport.final_score).length = 0) then 0
      else
        pyRound2 (((generate qr s ps).detailed_question_analysis.map
            QuestionReport.final_score).sum /
          ((((generate qr s ps).detailed_question_analysis.map
            QuestionReport.final_score).length : ℕ) : ℚ)) := rfl

theorem generate_status_eq (qr : ℕ → Option AIDict) (s : Option AIDict)
    (ps : List Payload) :
    (generate qr s ps).final_conclusive_report.status =
      if 70 ≤ (generate qr s ps).final_conclusive_report.overall_score then "Passed"
      else "Failed" := rfl

/-- C5: for every batch, the aggregate report's overall score is the
arithmetic mean of the per-question final scores rounded to two decimals
(0 for an empty batch, whose status is "Failed"), and the status is
"Passed" exactly when the overall score is at least 70; the boundary is
inclusive: three submissions scoring 100, 50 and 60 average exactly 70
and yield "Passed". -/
theorem c5_generate_overall_average_and_threshold
    (qualResponse : ℕ → Option AIDict) (synthResponse : Option AIDict)
    (payloads : List Payload) :
    ((generate qualResponse synthResponse payloads).final_conclusive_report.overall_score =
        if payloads = [] then 0
        else
          pyRound2
            (((generate qualResponse synthResponse
                  payloads).detailed_question_analysis.map
                QuestionReport.final_score).sum /
              (((generate qualResponse synthResponse
                  payloads).detailed_question_analysis.length : ℕ) : ℚ))) ∧
      ((generate qualResponse synthResponse payloads).final_conclusive_report.status =
          "Passed" ↔
        70 ≤ (generate qualResponse synthResponse
            payloads).final_conclusive_report.overall_score) ∧
      ((generate qualResponse synthResponse []).final_conclusive_report.overall_score =
          0 ∧
        (generate qualResponse synthResponse []).final_conclusive_report.status =
          "Failed") ∧
      ((generate exQual none exPayloads).detailed_question_analysis.map
          QuestionReport.final_score = [100, 50, 60] ∧
        (generate exQual none exPayloads).final_conclusive_report.overall_score = 70 ∧
        (generate exQual none exPayloads).final_conclusive_report.status = "Passed") := by
  have hlen : ∀ (qr : ℕ → Option AIDict) (s : Option AIDict) (ps : List Payload),
      ((generate qr s ps).detailed_question_analysis.map
        QuestionReport.final_score).length =
      (generate qr s ps).detailed_question_analysis.length := by
    intro qr s ps
    exact List.length_map _ _
  have hlen2 : (generate qualResponse synthResponse
      payloads).detailed_question_analysis.length = payloads.length := by
    rw [generate_reports_eq, List.length_map, List.enum_length]
  refine ⟨?_, ?_, ?_, ?_⟩
  · rw [generate_overall_eq, hlen, hlen2]
    by_cases h : payloads = []
    · subst h
      simp
    · rw [if_neg (fun hh => h (List.length_eq_zero.mp hh)), if_neg h]
  · rw [generate_status_eq]
    exact passed_iff_threshold _
  · have hnil : (generate qualResponse synthResponse []).detailed_question_analysis =
        ([] : List QuestionReport) := rfl
    have hover : (generate qualResponse synthResponse
        []).final_conclusive_report.overall_score = 0 := by
      rw [generate_overall_eq, hnil]
      simp
    refine ⟨hover, ?_⟩
    rw [generate_status_eq, hover]
    norm_num
  · have hprH : pass_rate_of pHundred = 100 := by
      have h1 : passed_tests_of pHundred = 1 := rfl
      have h2 : total_tests_of pHundred = 1 := rfl
      unfold pass_rate_of
      rw [h1, h2]
      norm_num
    have hqH : (quantitative_check pHundred).pass_rate = 100 := by
      rw [show (quantitative_check pHundred).pass_rate =
          pyRound2 (pass_rate_of pHundred) from rfl, hprH]
      exact pyRound2_eq_self 10000 (by norm_num)
    have s100 : score (quantitative_check pHundred)
        (qualitative_check pHundred (exQual 0)) false = 100 := by
      rw [score_false_eq, hqH,
        show effOf (qualitative_check pHundred (exQual 0)) = (10 : ℚ) from rfl,
        show styleOf (qualitative_check pHundred (exQual 0)) = (10 : ℚ) from rfl,
        show (15 + (100 : ℚ) / 100 * 40 + 10 / 10 * 20 + 10 / 10 * 25) = (100 : ℚ) by
          norm_num]
      exact pyRound2_eq_self 10000 (by norm_num)
    have hprF : pass_rate_of pFifty = 0 := by
      unfold pass_rate_of
      rw [show total_tests_of pFifty = 0 from rfl]
      norm_num
    have hqF : (quantitative_check pFifty).pass_rate = 0 := by
      rw [show (quantitative_check pFifty).pass_rate =
          pyRound2 (pass_rate_of pFifty) from rfl, hprF, pyRound2_zero]
    have s50 : score (quantitative_check pFifty)
        (qualitative_check pFifty (exQual 1)) false = 50 := by
      rw [score_false_eq, hqF,
        show effOf (qualitative_check pFifty (exQual 1)) = (10 : ℚ) from rfl,
        show styleOf (qualitative_check pFifty (exQual 1)) = (6 : ℚ) from rfl,
        show (15 + (0 : ℚ) / 100 * 40 + 10 / 10 * 20 + 6 / 10 * 25) = (50 : ℚ) by
          norm_num]
      exact pyRound2_eq_self 5000 (by norm_num)
    have hprS : pass_rate_of pSixty = 0 := by
      unfold pass_rate_of
      rw [show total_tests_of pSixty = 0 from rfl]
      norm_num
    have hqS : (quantitative_check pSixty).pass_rate = 0 := by
      rw [show (quantitative_check pSixty).pass_rate =
          pyRound2 (pass_rate_of pSixty) from rfl, hprS, pyRound2_zero]
    have s60 : score (quantitative_check pSixty)
        (qualitative_check pSixty (exQual 2)) false = 60 := by
      rw [score_false_eq, hqS,
        show effOf (qualitative_check pSixty (exQual 2)) = (10 : ℚ) from rfl,
        show styleOf (qualitative_check pSixty (exQual 2)) = (10 : ℚ) from rfl,
        show (15 + (0 : ℚ) / 100 * 40 + 10 / 10 * 20 + 10 / 10 * 25) = (60 : ℚ) by
          norm_num]
      exact pyRound2_eq_self 6000 (by norm_num)
    have hmap : (generate exQual none exPayloads).detailed_question_analysis.map
        QuestionReport.final_score =
        [score (quantitative_check pHundred) (qualitative_check pHundred (exQual 0)) false,
         score (quantitative_check pFifty) (qualitative_check pFifty (exQual 1)) false,
         score (quantitative_check pSixty) (qualitative_check pSixty (exQual 2)) false] :=
      rfl
    have hmap2 : (generate exQual none exPayloads).detailed_question_analysis.map
        QuestionReport.final_score = [(100 : ℚ), 50, 60] := by
      rw [hmap, s100, s50, s60]
    have hover70 : (generate exQual none
        exPayloads).final_conclusive_report.overall_score = 70 := by
      rw [generate_overall_eq, hmap2]
      rw [show ([(100 : ℚ), 50, 60]).length = 3 from rfl]
      rw [if_neg (by norm_num : ¬ (3 : ℕ) = 0)]
      rw [show ([(100 : ℚ), 50, 60]).sum = (210 : ℚ) by
        norm_num [List.sum_cons, List.sum_nil]]
      rw [show ((210 : ℚ) / ((3 : ℕ) : ℚ)) = (70 : ℚ) by norm_num]
      exact pyRound2_eq_self 7000 (by norm_num)
    refine ⟨hmap2, hover70, ?_⟩
    rw [generate_status_eq, hover70]
    norm_num
